import Mathlib

/-!
# Product list controller (`src/pages/product/Products.jsx`)

A shallow embedding of the `ProductListTable` component: its hook state, its
event handlers, the synchronous part of `fetchProducts` and the two
continuations that run when the request settles.

Modelling conventions.

* A JavaScript value that may be `undefined` or `null` is an `Option`.
* A handler or an effect is a closure over the state of the render that
  created it.  Functions that read the closure take that render state as
  `snap`; the state their `set...` calls are applied to is `cur`.
* `fetchProducts` is asynchronous.  Its part up to `await axios.get` is
  `fetchProducts`; the code after a resolved request is
  `fetchProducts_resolved`, the `catch` block is `fetchProducts_rejected`.
  A request that was issued and has not settled is a `Pending` entry, which
  remembers the `page` its closure captured.
* Events are handled one after the other: the handler runs, React commits the
  batched updates, and the `[page]` effect runs (and its `setLoading(true)` is
  committed) when the page differs from the one of the previous render, all
  before the next event.  A run in which a second scroll event arrives before
  that commit, and so still sees the old `loading`, is outside this model; the
  properties below that use `step` are about runs of the first kind.
-/

namespace Products

/-! ## Data model -/

/-- One row of the catalogue, as rendered by the table body. -/
structure Product where
  id : Nat
  title : String
  price : Rat
  category : String
  rating : Rat
  thumbnail : String
deriving DecidableEq

/-- One entry of the category dropdown. -/
structure Category where
  slug : String
  name : String
deriving DecidableEq

/-- The `filters` hook state; every field is the text of its input. -/
structure Filters where
  category : String
  minPrice : String
  maxPrice : String
  minRating : String
  sort : String
deriving DecidableEq

/-- The `name` attributes of the five filter inputs. -/
inductive FilterName
  | category
  | minPrice
  | maxPrice
  | minRating
  | sort
deriving DecidableEq

/-- The hook state of `ProductListTable`.  `total` is `data.total`. -/
structure State where
  products : Option (List Product)
  loading : Bool
  error : Option String
  page : Nat
  categories : List Category
  filters : Filters
  total : Option Nat
deriving DecidableEq

/-- The arguments of one `axios.get(url, { params })` call: `skip` and `limit`
are always present, `optional` lists the other keys of `params` in source
order. -/
structure Request where
  url : String
  skip : Int
  limit : Nat
  optional : List (String × String)
deriving DecidableEq

/-- The names of all query parameters of a request. -/
def Request.paramNames (r : Request) : List String :=
  ["skip", "limit"] ++ r.optional.map Prod.fst

/-- A request in flight together with the `page` seen by the `fetchProducts`
closure that issued it. -/
structure Pending where
  page : Nat
  request : Request
deriving DecidableEq

/-- The `response.data` object of a resolved request; a missing field reads as
`undefined`. -/
structure Payload where
  products : Option (List Product)
  total : Option Nat
deriving DecidableEq

/-- How `axios.get` settles: it resolves with the payload of a 2xx response and
rejects with an error carrying a `message` otherwise. -/
inductive Outcome
  | resolved (data : Payload)
  | rejected (message : String)
deriving DecidableEq

/-- The three measurements `handleScroll` reads from `event.target`. -/
structure ScrollEvent where
  scrollTop : Int
  scrollHeight : Int
  clientHeight : Int
deriving DecidableEq

/-! ## The component -/

/-- The values passed to `useState` (lines 21-35). -/
def initialState : State :=
  { products := some []
    loading := false
    error := none
    page := 1
    categories := []
    filters := { category := "", minPrice := "", maxPrice := "", minRating := "", sort := "" }
    total := some 1 }

/-- Line 36. -/
def limit : Nat := 10

/-- Line 86. -/
def tolerance : Int := 10

/-- The guard of line 50, `products.length < data.total`.  Reading `length` of
an undefined list throws before anything is done, and a comparison with an
undefined total is false: in both cases nothing is fetched. -/
def fetchGuard (s : State) : Bool :=
  match s.products, s.total with
  | some l, some t => decide (l.length < t)
  | _, _ => false

/-- The spread `...(value && { key: value })` of lines 57-61: the key is present
exactly when the text is non-empty. -/
def optionalParam (key value : String) : List (String × String) :=
  if value = "" then [] else [(key, value)]

/-- Lines 53-66: the URL and the parameters built from the closure state. -/
def buildRequest (snap : State) : Request :=
  { url :=
      if snap.filters.category = "" then "https://dummyjson.com/products"
      else "https://dummyjson.com/products/category/" ++ snap.filters.category
    skip := ((snap.page : Int) - 1) * (limit : Int)
    limit := limit
    optional :=
      optionalParam "category" snap.filters.category ++
      optionalParam "minPrice" snap.filters.minPrice ++
      optionalParam "maxPrice" snap.filters.maxPrice ++
      optionalParam "minRating" snap.filters.minRating ++
      optionalParam "sort" snap.filters.sort }

/-- Lines 49-67, up to the `await`: when the guard of the closure state holds,
`setLoading(true)` and one request; otherwise nothing. -/
def fetchProducts (snap cur : State) : State × List Pending :=
  if fetchGuard snap then
    ({ cur with loading := true }, [{ page := snap.page, request := buildRequest snap }])
  else (cur, [])

/-- Lines 68-72, `page` being the closure's page.  On page 1 the list is replaced
by `response.data.products`; otherwise both lists are spread into a new one,
which throws when either is undefined (`none`: the component cannot render). -/
def fetchProducts_resolved (page : Nat) (data : Payload) (cur : State) : Option State :=
  let merged : Option (Option (List Product)) :=
    if page = 1 then some data.products
    else
      match cur.products, data.products with
      | some prev, some r => some (some (prev ++ r))
      | _, _ => none
  merged.map fun ps => { cur with products := ps, total := data.total, loading := false }

/-- Lines 74-77, the `catch` block. -/
def fetchProducts_rejected (message : String) (cur : State) : State :=
  { cur with error := some message, loading := false }

/-- Line 42: the categories response is stored as it is.  A failed categories
request is only logged (line 44) and changes nothing. -/
def fetchCategories_resolved (cs : List Category) (cur : State) : State :=
  { cur with categories := cs }

/-- The continuation of `fetchProducts` after the request settled. -/
def settle (page : Nat) (o : Outcome) (cur : State) : Option State :=
  match o with
  | .resolved data => fetchProducts_resolved page data cur
  | .rejected message => some (fetchProducts_rejected message cur)

/-- The test of line 88 on the measurements alone. -/
def nearBottom (ev : ScrollEvent) : Bool :=
  decide (ev.scrollHeight - ev.scrollTop ≤ ev.clientHeight + tolerance)

/-- Lines 83-93.  The callback is rebuilt whenever `loading` changes, so the
`loading` it reads is the current one. -/
def handleScroll (ev : ScrollEvent) (s : State) : State :=
  if nearBottom ev && !s.loading then { s with page := s.page + 1 } else s

/-- Lines 96-99. -/
def handleFilterChange (name : FilterName) (value : String) (s : State) : State :=
  match name with
  | .category => { s with filters := { s.filters with category := value } }
  | .minPrice => { s with filters := { s.filters with minPrice := value } }
  | .maxPrice => { s with filters := { s.filters with maxPrice := value } }
  | .minRating => { s with filters := { s.filters with minRating := value } }
  | .sort => { s with filters := { s.filters with sort := value } }

/-- Lines 101-106: three state updates, then `fetchProducts()` of the same
render, which still sees the state from before the updates. -/
def handleApplyFilters (snap : State) : State × List Pending :=
  fetchProducts snap { snap with page := 1, total := some 1, products := some [] }

/-- Lines 112-114: after a commit whose page differs from the previous render,
the new render's `fetchProducts` runs. -/
def pageEffect (before after : State) : State × List Pending :=
  if before.page = after.page then (after, []) else fetchProducts after after

/-- What the component returns (lines 116-229). -/
inductive View
  | loadingScreen
  | errorScreen (message : String)
  | table (rows : List Product) (loadingMore : Bool)
deriving DecidableEq

/-- Lines 116-229.  A non-empty error text is truthy; `products.map` throws on
an undefined list (`none`). -/
def render (s : State) : Option View :=
  if s.loading && s.page == 1 then some .loadingScreen
  else
    match s.error with
    | some message =>
      if message = "" then s.products.map fun rows => .table rows s.loading
      else some (.errorScreen message)
    | none => s.products.map fun rows => .table rows s.loading

/-- The filter bar and the scroll container exist only in the table view. -/
def tableShown (s : State) : Bool :=
  match render s with
  | some (.table _ _) => true
  | _ => false

/-! ## The component together with its requests in flight -/

/-- The component state and the product requests that have not settled. -/
structure Sys where
  state : State
  inflight : List Pending
deriving DecidableEq

/-- What can happen to a mounted component. -/
inductive Event
  | scroll (ev : ScrollEvent)
  | filterChange (name : FilterName) (value : String)
  | applyFilters
  | settle (i : Nat) (o : Outcome)
  | categoriesLoaded (cs : List Category)
deriving DecidableEq

/-- The first render followed by the mount effects: `fetchProducts` of the
initial render (the categories request is not tracked). -/
def mount : Sys :=
  let r := fetchProducts initialState initialState
  { state := r.1, inflight := r.2 }

/-- One event, handled to completion before the next one arrives (handler,
commit, and the page effect with its own commit); `none` when the event cannot
happen in this state (no scroll container or filter bar on screen, no such
request in flight) or the merge of the response throws. -/
def step (sys : Sys) : Event → Option Sys
  | .scroll ev =>
    if tableShown sys.state then
      let r := pageEffect sys.state (handleScroll ev sys.state)
      some { state := r.1, inflight := sys.inflight ++ r.2 }
    else none
  | .filterChange name value =>
    if tableShown sys.state then
      some { sys with state := handleFilterChange name value sys.state }
    else none
  | .applyFilters =>
    if tableShown sys.state then
      let a := handleApplyFilters sys.state
      let r := pageEffect sys.state a.1
      some { state := r.1, inflight := sys.inflight ++ a.2 ++ r.2 }
    else none
  | .settle i o =>
    match sys.inflight[i]? with
    | none => none
    | some p =>
      (settle p.page o sys.state).map fun s =>
        { state := s, inflight := sys.inflight.eraseIdx i }
  | .categoriesLoaded cs =>
    some { sys with state := fetchCategories_resolved cs sys.state }

/-- Runs a list of events, failing at the first one that cannot happen. -/
def run (sys : Sys) : List Event → Option Sys
  | [] => some sys
  | e :: es => (step sys e).bind fun sys1 => run sys1 es

/-! ## The catalogue server -/

/-- A catalogue for every endpoint and set of filter parameters. -/
abbrev Server := String → List (String × String) → List Product

/-- The answer to a request: the requested slice of the selected catalogue and
that catalogue's size. -/
def serve (srv : Server) (r : Request) : Payload :=
  { products := some (((srv r.url r.optional).drop r.skip.toNat).take r.limit)
    total := some (srv r.url r.optional).length }

/-- Whether an event is a user action, a category response, or the successful
completion of a request in flight with the server's answer. -/
def servedEvent (srv : Server) (sys : Sys) : Event → Prop
  | .settle i o => ∃ p, sys.inflight[i]? = some p ∧ o = .resolved (serve srv p.request)
  | _ => True

/-- States reachable from the mounted component by events that `allowed`
admits in the state they occur in. -/
inductive ReachableBy (allowed : Sys → Event → Prop) : Sys → Prop
  | mount : ReachableBy allowed mount
  | step {sys sys1 : Sys} (e : Event) :
      ReachableBy allowed sys → allowed sys e → step sys e = some sys1 →
      ReachableBy allowed sys1

/-- States reached from the mounted component by scroll events, filter edits,
Apply Filters and successful fetch completions, handled one after the other. -/
def Reachable (srv : Server) : Sys → Prop := ReachableBy (servedEvent srv)

/-- The oldest request in flight completes successfully with the server's
answer; nothing happens when no request is in flight. -/
def deliver (srv : Server) (sys : Sys) : Sys :=
  match sys.inflight with
  | [] => sys
  | p :: _ =>
    match step sys (.settle 0 (.resolved (serve srv p.request))) with
    | some sys1 => sys1
    | none => sys

/-- One scroll trigger followed by the successful completion of the request it
issued, if it issued one. -/
def loadNext (srv : Server) (ev : ScrollEvent) (sys : Sys) : Sys :=
  match step sys (.scroll ev) with
  | some sys1 => deliver srv sys1
  | none => sys

/-- The component after pages `1..k` have been loaded in order: page 1 by the
mount effect, each later page by one scroll trigger. -/
def pagesLoaded (srv : Server) (ev : ScrollEvent) : Nat → Sys
  | 0 => mount
  | 1 => deliver srv mount
  | k + 2 => loadNext srv ev (pagesLoaded srv ev (k + 1))

/-- One event, ignored when it cannot happen. -/
def act (e : Event) (sys : Sys) : Sys :=
  match step sys e with
  | some sys1 => sys1
  | none => sys

/-! ## Concrete data for the worked examples -/

/-- A product whose only distinguishing field is its identifier. -/
def sampleProduct (i : Nat) : Product :=
  { id := i, title := "", price := 0, category := "", rating := 0, thumbnail := "" }

/-- A catalogue of `n` distinct products. -/
def sampleCatalogue (n : Nat) : List Product :=
  (List.range n).map sampleProduct

/-- A server with 25 products in all, 3 of them in every filtered selection. -/
def sampleServer : Server := fun _ optional =>
  match optional with
  | [] => sampleCatalogue 25
  | _ :: _ => sampleCatalogue 3

/-- A scroll position at the very bottom of the container. -/
def atBottom : ScrollEvent :=
  { scrollTop := 300, scrollHeight := 700, clientHeight := 400 }

/-- The first page of the full catalogue is loaded, the category filter is
edited without applying it, and a scroll event loads the next page. -/
def editedFilterPage : Sys :=
  deliver sampleServer
    (act (.scroll atBottom)
      (act (.filterChange .category "tablets") (deliver sampleServer mount)))

/-- The request in flight at position `i` completes successfully with the
server's answer. -/
def deliverAt (srv : Server) (i : Nat) (sys : Sys) : Option Sys :=
  match sys.inflight[i]? with
  | none => none
  | some p => step sys (.settle i (.resolved (serve srv p.request)))

/-- The first page is loaded and a scroll to the bottom has put the request for
page 2 in flight. -/
def secondPageRequested : Sys :=
  act (.scroll atBottom) (deliver sampleServer mount)

/-- The identifiers of the products on screen. -/
def listedIds (sys : Sys) : Option (List Nat) :=
  sys.state.products.map (List.map Product.id)

/-- The mounted component after two pages of the 25-product catalogue have been
loaded: 20 products, page 2, nothing in flight. -/
def twoPagesLoaded : Sys := pagesLoaded sampleServer atBottom 2

/-- The mounted component after a category of 3 products has been selected and
applied on page 1 and its only page has arrived. -/
def smallCategoryLoaded : Option Sys :=
  (run (deliver sampleServer mount)
    [.filterChange .category "tablets", .applyFilters]).map (deliver sampleServer)

/-- Apply Filters is pressed with two of three pages loaded, and the response to
the page effect's request (skip 0) arrives; the request issued by the handler
itself (skip 10, closure page 2) is still in flight. -/
def firstPageAfterApply : Option Sys :=
  (step twoPagesLoaded .applyFilters).bind (deliverAt sampleServer 1)

/-- Selecting a category and pressing Apply Filters: the handlers of the two
events and the page effect. -/
def selectAndApply (slug : String) (sys : Sys) : Option Sys :=
  run sys [.filterChange .category slug, .applyFilters]

/-- The endpoint and offset of every request in flight. -/
def inflightTargets (sys : Sys) : List (String × Int) :=
  sys.inflight.map fun p => (p.request.url, p.request.skip)

/-- The parameters other than `skip` and `limit` as the interface description
lists them: `minPrice`, `maxPrice`, `minRating` and `sort`, each when set. -/
def specOptionalParams (f : Filters) : List (String × String) :=
  optionalParam "minPrice" f.minPrice ++
  optionalParam "maxPrice" f.maxPrice ++
  optionalParam "minRating" f.minRating ++
  optionalParam "sort" f.sort

/-! ## Properties of the handlers -/

/-- The merge of lines 68-72 as a function of the page `p` captured by the
`fetchProducts` call that issued the request: the list becomes `r` if `p = 1`
and the old list followed by `r` otherwise, the total becomes `t`, loading
becomes false, and every other field is unchanged. -/
theorem fetchProducts_resolved_merges (s : State) (old r : List Product) (t p : Nat) :
    fetchProducts_resolved p { products := some r, total := some t }
        { s with products := some old } =
      some { s with
        products := some (if p = 1 then r else old ++ r)
        total := some t
        loading := false } := by
  by_cases hp : p = 1 <;> simp [fetchProducts_resolved, hp]

/-- C1 fails on the code.  After Apply Filters on page 2 (20 of 25 loaded) and
the arrival of the first page, the page counter is 1, the list holds products
0..9 and the handler's own request (skip 10, captured page 2) is still in
flight; when its response, products 10..19, arrives, the page counter is still
1 but the list becomes products 0..19, the old list followed by the response,
not the response alone. -/
theorem stale_response_is_appended :
    firstPageAfterApply.map
        (fun sys => (sys.state.page, listedIds sys,
          sys.inflight.map fun p => (p.page, p.request.skip))) =
        some (1, some (List.range 10), [(2, 10)]) ∧
      (firstPageAfterApply.bind fun sys => sys.inflight[0]?).map
          (fun p => (serve sampleServer p.request).products.map (List.map Product.id)) =
        some (some ((List.range 20).drop 10)) ∧
      (firstPageAfterApply.bind (deliverAt sampleServer 0)).map
          (fun sys => (sys.state.page, listedIds sys, sys.inflight)) =
        some (1, some (List.range 20), []) := by
  refine ⟨?_, ?_, ?_⟩ <;> decide

/-- C4: after a fetch started in state `s` fails with message `e`, the state is
`s` with `error` set to `e` and `loading` false, so list, page, total and
filters are those from before the fetch; the re-render runs no page effect
fetch, and settling a request in flight by a failure only removes that request
from the requests in flight. -/
theorem fetchProducts_rejected_keeps_state (s : State) (e : String) :
    fetchProducts_rejected e (fetchProducts s s).1 =
        { s with error := some e, loading := false } ∧
      (fetchProducts_rejected e (fetchProducts s s).1).products = s.products ∧
      pageEffect (fetchProducts s s).1 (fetchProducts_rejected e (fetchProducts s s).1) =
        (fetchProducts_rejected e (fetchProducts s s).1, []) ∧
      ∀ (sys : Sys) (i : Nat) (p : Pending), sys.inflight[i]? = some p →
        step sys (.settle i (.rejected e)) =
          some { state := { sys.state with error := some e, loading := false }
                 inflight := sys.inflight.eraseIdx i } := by
  refine ⟨?_, ?_, ?_, ?_⟩
  · unfold fetchProducts fetchProducts_rejected
    split <;> rfl
  · unfold fetchProducts fetchProducts_rejected
    split <;> rfl
  · unfold pageEffect fetchProducts fetchProducts_rejected
    split <;> simp
  · intro sys i p hp
    simp [step, hp, settle, fetchProducts_rejected]

/-- C6: `handleApplyFilters` leaves page 1, an empty list and total 1, with
filters, categories and error unchanged, both right after its own updates and
after the page effect has run (`afterEffect`); the fetch guard holds there, and
a successful response merged into that state, whatever page its closure saw,
leaves exactly the response's products. -/
theorem handleApplyFilters_resets (s : State) (afterEffect : Bool) :
    ∃ s1 : State,
      s1 = (if afterEffect then (pageEffect s (handleApplyFilters s).1).1
            else (handleApplyFilters s).1) ∧
      s1.page = 1 ∧ s1.products = some [] ∧ s1.total = some 1 ∧
      s1.filters = s.filters ∧ s1.categories = s.categories ∧ s1.error = s.error ∧
      fetchGuard s1 = true ∧
      ∀ (p : Nat) (r : List Product) (t : Option Nat),
        (fetchProducts_resolved p { products := some r, total := t } s1).map State.products =
          some (some r) := by
  have key : ∀ s1 : State, s1.page = 1 → s1.products = some [] → s1.total = some 1 →
      s1.filters = s.filters → s1.categories = s.categories → s1.error = s.error →
      s1.page = 1 ∧ s1.products = some [] ∧ s1.total = some 1 ∧
      s1.filters = s.filters ∧ s1.categories = s.categories ∧ s1.error = s.error ∧
      fetchGuard s1 = true ∧
      ∀ (p : Nat) (r : List Product) (t : Option Nat),
        (fetchProducts_resolved p { products := some r, total := t } s1).map State.products =
          some (some r) := by
    intro s1 h1 h2 h3 h4 h5 h6
    refine ⟨h1, h2, h3, h4, h5, h6, ?_, ?_⟩
    · simp [fetchGuard, h2, h3]
    · intro p r t
      by_cases hp : p = 1 <;> simp [fetchProducts_resolved, hp, h2]
  refine ⟨_, rfl, ?_⟩
  cases afterEffect
  · simp only [Bool.false_eq_true, if_false]
    apply key <;> (unfold handleApplyFilters fetchProducts; split <;> rfl)
  · simp only [if_true]
    apply key <;>
      (unfold pageEffect handleApplyFilters fetchProducts; repeat (split <;> try rfl))

/-- C7: `handleScroll` adds exactly 1 to the page when the distance to the
bottom is at most 10 and loading is false, and otherwise changes nothing, in
particular while loading; no other field changes in either case. -/
theorem handleScroll_page (s : State) (ev : ScrollEvent) :
    handleScroll ev s =
        (if ev.scrollHeight - ev.scrollTop - ev.clientHeight ≤ 10 ∧ s.loading = false then
          { s with page := s.page + 1 } else s) ∧
      ((handleScroll ev s).page = s.page + 1 ↔
        (ev.scrollHeight - ev.scrollTop - ev.clientHeight ≤ 10 ∧ s.loading = false)) ∧
      (s.loading = true → handleScroll ev s = s) := by
  have hnear : nearBottom ev = true ↔ ev.scrollHeight - ev.scrollTop - ev.clientHeight ≤ 10 := by
    simp only [nearBottom, tolerance, decide_eq_true_eq]
    omega
  by_cases h1 : ev.scrollHeight - ev.scrollTop - ev.clientHeight ≤ 10 <;>
    by_cases h2 : s.loading = false <;>
    simp [handleScroll, hnear, h1, h2]

/-- Scroll events leave the list and the total alone. -/
theorem handleScroll_products_total (ev : ScrollEvent) (s : State) :
    (handleScroll ev s).products = s.products ∧ (handleScroll ev s).total = s.total := by
  unfold handleScroll
  split <;> exact ⟨rfl, rfl⟩

/-- Any number of scroll events leaves the fetch guard as it was. -/
theorem fetchGuard_scrolls (evs : List ScrollEvent) (s : State) :
    fetchGuard (evs.foldl (fun st ev => handleScroll ev st) s) = fetchGuard s := by
  induction evs generalizing s with
  | nil => rfl
  | cons ev evs ih =>
    rw [List.foldl_cons, ih]
    unfold fetchGuard
    rw [(handleScroll_products_total ev s).1, (handleScroll_products_total ev s).2]

/-- C8: in a state with list `l` and total `t`, `fetchProducts` issues a
request exactly when `l.length < t`; when `t ≤ l.length` it issues none and
changes no field, after any scroll events; when it issues one, it is a single
request with skip `(page - 1) * 10` and limit 10, to the category endpoint
when the category filter is non-empty and to `/products` otherwise. -/
theorem fetchProducts_guard (s : State) (l : List Product) (t : Nat) :
    ((fetchProducts { s with products := some l, total := some t }
        { s with products := some l, total := some t }).2 ≠ [] ↔ l.length < t) ∧
      (t ≤ l.length → ∀ evs : List ScrollEvent,
        fetchProducts
            (evs.foldl (fun st ev => handleScroll ev st)
              { s with products := some l, total := some t })
            (evs.foldl (fun st ev => handleScroll ev st)
              { s with products := some l, total := some t }) =
          (evs.foldl (fun st ev => handleScroll ev st)
            { s with products := some l, total := some t }, [])) ∧
      (l.length < t →
        ∃ r : Request,
          fetchProducts { s with products := some l, total := some t }
              { s with products := some l, total := some t } =
            ({ s with products := some l, total := some t, loading := true },
              [{ page := s.page, request := r }]) ∧
          r.skip = ((s.page : Int) - 1) * 10 ∧ r.limit = 10 ∧
          (s.filters.category ≠ "" →
            r.url = "https://dummyjson.com/products/category/" ++ s.filters.category) ∧
          (s.filters.category = "" → r.url = "https://dummyjson.com/products")) := by
  have hg : fetchGuard { s with products := some l, total := some t } = decide (l.length < t) := rfl
  refine ⟨?_, ?_, ?_⟩
  · unfold fetchProducts
    rw [hg]
    by_cases h : l.length < t <;> simp [h]
  · intro h evs
    unfold fetchProducts
    rw [fetchGuard_scrolls, hg]
    simp [Nat.not_lt.mpr h]
  · intro h
    refine ⟨buildRequest { s with products := some l, total := some t }, ?_, ?_, ?_, ?_, ?_⟩
    · unfold fetchProducts
      rw [hg]
      simp [h]
    · simp [buildRequest, limit]
    · rfl
    · intro hc
      simp [buildRequest, hc]
    · intro hc
      simp [buildRequest, hc]

/-- C9 as stated fails: with the category filter set to "smartphones" the
request carries a `category` parameter besides `skip` and `limit`. -/
theorem buildRequest_sends_category :
    (buildRequest
        { initialState with
          filters := { initialState.filters with category := "smartphones" } }).optional ≠
      specOptionalParams { initialState.filters with category := "smartphones" } ∧
    (buildRequest
        { initialState with
          filters := { initialState.filters with category := "smartphones" } }).paramNames =
      ["skip", "limit", "category"] := by
  decide

/-- Membership in the list produced for one optional parameter. -/
theorem mem_optionalParam (key value : String) (kv : String × String) :
    kv ∈ optionalParam key value ↔ value ≠ "" ∧ kv = (key, value) := by
  unfold optionalParam
  split <;> simp_all

/-- C9, amended: besides `skip` and `limit` the request carries exactly those of
`category`, `minPrice`, `maxPrice`, `minRating` and `sort` whose filter text is
non-empty, each with the text unchanged; these are the four listed parameters
preceded by `category` when a category is set, and just the four listed ones
when none is set. -/
theorem buildRequest_params (s : State) :
    (∀ kv : String × String, kv ∈ (buildRequest s).optional ↔
      kv.2 ≠ "" ∧
        (kv = ("category", s.filters.category) ∨ kv = ("minPrice", s.filters.minPrice) ∨
          kv = ("maxPrice", s.filters.maxPrice) ∨ kv = ("minRating", s.filters.minRating) ∨
          kv = ("sort", s.filters.sort))) ∧
      (buildRequest s).skip = ((s.page : Int) - 1) * 10 ∧
      (buildRequest s).limit = 10 ∧
      (s.filters.category = "" → (buildRequest s).optional = specOptionalParams s.filters) ∧
      (s.filters.category ≠ "" →
        (buildRequest s).optional =
          ("category", s.filters.category) :: specOptionalParams s.filters) := by
  refine ⟨?_, ?_, rfl, ?_, ?_⟩
  · rintro ⟨k, v⟩
    simp only [buildRequest, List.mem_append, mem_optionalParam, Prod.mk.injEq]
    constructor
    · intro h
      rcases h with (((h | h) | h) | h) | h <;>
        (obtain ⟨h1, rfl, rfl⟩ := h; simp [h1])
    · rintro ⟨h, h1 | h1 | h1 | h1 | h1⟩ <;>
        (obtain ⟨rfl, rfl⟩ := h1; simp [h])
  · simp [buildRequest, limit]
  · intro h
    simp [buildRequest, specOptionalParams, optionalParam, h]
  · intro h
    simp [buildRequest, specOptionalParams, optionalParam, h]

/-- C10 fails on the code: a 2xx response with a malformed payload takes the
success path.  With the first request in flight, a payload without a products
list leaves the list undefined, stores the total, clears `loading` and leaves
`error` unset, and the component then cannot render its table; a payload
without a total replaces the list and leaves the total undefined and `error`
unset.  With the request for page 2 in flight, a payload without a products
list makes the merge throw, and no error is stored either. -/
theorem malformed_payload_is_merged :
    (mount.state.products = some [] ∧ mount.state.error = none ∧
        (mount.inflight.map fun p => (p.page, p.request.skip)) = [(1, 0)]) ∧
      step mount (.settle 0 (.resolved { products := none, total := some 5 })) =
        some { state := { mount.state with products := none, total := some 5, loading := false }
               inflight := [] } ∧
      render { mount.state with products := none, total := some 5, loading := false } = none ∧
      step mount (.settle 0 (.resolved { products := some [sampleProduct 7], total := none })) =
        some { state :=
                 { mount.state with
                   products := some [sampleProduct 7], total := none, loading := false }
               inflight := [] } ∧
      ((secondPageRequested.inflight.map fun p => (p.page, p.request.skip)) = [(2, 10)] ∧
        listedIds secondPageRequested = some (List.range 10) ∧
        step secondPageRequested (.settle 0 (.resolved { products := none, total := some 25 })) =
          none) := by
  refine ⟨⟨?_, ?_, ?_⟩, ?_, ?_, ?_, ?_, ?_, ?_⟩ <;> decide

/-- C5 fails on the code.  With 20 of 25 products loaded on page 2 and nothing
in flight, selecting "smartphones" and pressing Apply Filters issues two
requests to the category endpoint, the first with skip 10; with a complete
3-product list on page 1, selecting "laptops" and pressing Apply Filters
issues no request at all, although the list has been cleared. -/
theorem applyFilters_request_count :
    (twoPagesLoaded.state.page = 2 ∧
        twoPagesLoaded.state.products.map List.length = some 20 ∧
        twoPagesLoaded.state.total = some 25 ∧
        twoPagesLoaded.state.loading = false ∧
        twoPagesLoaded.inflight = [] ∧
        (selectAndApply "smartphones" twoPagesLoaded).map inflightTargets =
          some [("https://dummyjson.com/products/category/smartphones", 10),
                ("https://dummyjson.com/products/category/smartphones", 0)] ∧
        (selectAndApply "smartphones" twoPagesLoaded).map (fun sys => sys.state.page) = some 1) ∧
      (smallCategoryLoaded.map
          (fun sys => (sys.state.page, sys.state.products.map List.length, sys.state.total,
            sys.state.loading, sys.inflight)) =
          some (1, some 3, some 3, false, []) ∧
        (smallCategoryLoaded.bind (selectAndApply "laptops")).map
          (fun sys => (sys.state.page, sys.state.products, sys.state.total, sys.inflight)) =
          some (1, some [], some 1, [])) := by
  refine ⟨⟨?_, ?_, ?_, ?_, ?_, ?_, ?_⟩, ?_, ?_⟩ <;> decide

/-- With the initial (empty) filters the request depends on the page only. -/
theorem buildRequest_no_filters (s : State) (h : s.filters = initialState.filters) :
    buildRequest s =
      { url := "https://dummyjson.com/products", skip := ((s.page : Int) - 1) * 10,
        limit := 10, optional := [] } := by
  simp [buildRequest, h, initialState, optionalParam, limit]

/-- The answer to the unfiltered request for page `k + 1`. -/
theorem serve_page (srv : Server) (k : Nat) :
    serve srv { url := "https://dummyjson.com/products", skip := (((k + 1 : Nat) : Int) - 1) * 10,
                limit := 10, optional := [] } =
      { products := some (((srv "https://dummyjson.com/products" []).drop (10 * k)).take 10)
        total := some (srv "https://dummyjson.com/products" []).length } := by
  have h : ((((k + 1 : Nat) : Int) - 1) * 10).toNat = 10 * k := by
    push_cast
    omega
  simp only [serve, h]

/-- Appending the next page to a prefix gives the next prefix. -/
theorem take_append_page (c : List Product) (k : Nat) :
    c.take (10 * k) ++ (c.drop (10 * k)).take 10 = c.take (10 * (k + 1)) := by
  rw [Nat.mul_add, Nat.mul_one, List.take_add]

/-- The guard on a prefix of the catalogue. -/
theorem fetchGuard_take (s : State) (c : List Product) (n : Nat)
    (hp : s.products = some (c.take n)) (ht : s.total = some c.length) :
    fetchGuard s = decide (n < c.length) := by
  simp [fetchGuard, hp, ht]

/-- The page effect after a scroll event, in a state holding a prefix of the
catalogue. -/
theorem pageEffect_handleScroll (s : State) (ev : ScrollEvent) (c : List Product) (n : Nat)
    (hp : s.products = some (c.take n)) (ht : s.total = some c.length) :
    pageEffect s (handleScroll ev s) =
      if nearBottom ev = true ∧ s.loading = false then
        if n < c.length then
          ({ s with page := s.page + 1, loading := true },
            [{ page := s.page + 1, request := buildRequest { s with page := s.page + 1 } }])
        else ({ s with page := s.page + 1 }, [])
      else (s, []) := by
  by_cases h : nearBottom ev = true ∧ s.loading = false
  · have hs : handleScroll ev s = { s with page := s.page + 1 } := by
      simp [handleScroll, h.1, h.2]
    have hg : fetchGuard { s with page := s.page + 1 } = decide (n < c.length) :=
      fetchGuard_take _ c n hp ht
    rw [hs, if_pos h]
    simp only [pageEffect, fetchProducts, hg]
    by_cases hn : n < c.length <;> simp [hn]
  · have hs : handleScroll ev s = s := by
      unfold handleScroll
      rw [if_neg]
      simpa using h
    rw [hs, if_neg h]
    simp [pageEffect]

/-- The component after `k + 1` pages: the first `10 * (k + 1)` products of the
unfiltered catalogue, its size as total, page `k + 1`, nothing in flight. -/
theorem pagesLoaded_succ (srv : Server) (ev : ScrollEvent) (hev : nearBottom ev = true)
    (k : Nat) :
    pagesLoaded srv ev (k + 1) =
      { state :=
          { initialState with
            products := some ((srv "https://dummyjson.com/products" []).take (10 * (k + 1)))
            total := some (srv "https://dummyjson.com/products" []).length
            page := k + 1 }
        inflight := [] } := by
  induction k with
  | zero =>
    have h := serve_page srv 0
    simp at h
    simp [pagesLoaded, deliver, mount, fetchProducts, fetchGuard, initialState, step, settle,
      fetchProducts_resolved, buildRequest, optionalParam, limit, h]
  | succ k ih =>
    have hs := serve_page srv (k + 1)
    have hshown : tableShown
        { initialState with
          products := some ((srv "https://dummyjson.com/products" []).take (10 * (k + 1)))
          total := some (srv "https://dummyjson.com/products" []).length
          page := k + 1 } = true := by
      simp [tableShown, render, initialState]
    have hb := buildRequest_no_filters
        { initialState with
          products := some ((srv "https://dummyjson.com/products" []).take (10 * (k + 1)))
          total := some (srv "https://dummyjson.com/products" []).length
          page := k + 1 + 1 } rfl
    have he := pageEffect_handleScroll
        { initialState with
          products := some ((srv "https://dummyjson.com/products" []).take (10 * (k + 1)))
          total := some (srv "https://dummyjson.com/products" []).length
          page := k + 1 } ev (srv "https://dummyjson.com/products" []) (10 * (k + 1)) rfl rfl
    rw [if_pos ⟨hev, rfl⟩] at he
    rw [pagesLoaded, ih]
    simp only [loadNext, step, hshown, if_true, he]
    by_cases hn : 10 * (k + 1) < (srv "https://dummyjson.com/products" []).length
    · simp only [if_pos hn, List.nil_append, deliver, step, List.getElem?_cons_zero, hb, hs,
        settle, fetchProducts_resolved]
      simp [take_append_page, initialState]
    · simp only [if_neg hn, List.append_nil, deliver]
      have h1 : (srv "https://dummyjson.com/products" []).length ≤ 10 * (k + 1) := Nat.not_lt.mp hn
      rw [List.take_of_length_le h1, List.take_of_length_le (by omega)]

/-- C2: against a server holding the catalogue `c`, after pages `1..k` have
been loaded in order the list is the first `min (10 * k) c.length` products of
`c` in catalogue order, the total is `c.length` and nothing is in flight; once
the list holds the whole catalogue, a further scroll event issues no request
and leaves the list as it is. -/
theorem pagesLoaded_take (c : List Product) (ev : ScrollEvent) (k : Nat)
    (hev : nearBottom ev = true) (hk : 1 ≤ k) :
    (pagesLoaded (fun _ _ => c) ev k).state.products =
        some (c.take (min (10 * k) c.length)) ∧
      (pagesLoaded (fun _ _ => c) ev k).state.total = some c.length ∧
      (pagesLoaded (fun _ _ => c) ev k).inflight = [] ∧
      (c.length ≤ 10 * k → ∀ ev1 : ScrollEvent, ∃ sys1,
        step (pagesLoaded (fun _ _ => c) ev k) (.scroll ev1) = some sys1 ∧
          sys1.inflight = [] ∧ sys1.state.products = some c) := by
  obtain ⟨j, rfl⟩ : ∃ j, k = j + 1 := ⟨k - 1, by omega⟩
  rw [pagesLoaded_succ (fun _ _ => c) ev hev j]
  refine ⟨?_, rfl, rfl, ?_⟩
  · simp only [Option.some.injEq]
    rw [List.take_eq_take]
    simp
  · intro hc ev1
    have hshown : tableShown
        { initialState with
          products := some (c.take (10 * (j + 1))), total := some c.length, page := j + 1 } =
          true := by
      simp [tableShown, render, initialState]
    have he := pageEffect_handleScroll
        { initialState with
          products := some (c.take (10 * (j + 1))), total := some c.length, page := j + 1 }
        ev1 c (10 * (j + 1)) rfl rfl
    rw [if_neg (Nat.not_lt.mpr hc)] at he
    simp only [step, hshown, if_true, he]
    split <;> simp [List.take_of_length_le hc]

/-- C2 at the catalogue of 25 products: 10 products after page 1, 20 after page
2, 25 after page 3, and the general statement at `k = 3`. -/
theorem pagesLoaded_take_witness :
    ((pagesLoaded (fun _ _ => sampleCatalogue 25) atBottom 1).state.products.map List.length =
        some 10 ∧
      (pagesLoaded (fun _ _ => sampleCatalogue 25) atBottom 2).state.products.map List.length =
        some 20 ∧
      (pagesLoaded (fun _ _ => sampleCatalogue 25) atBottom 3).state.products.map List.length =
        some 25) ∧
    ((pagesLoaded (fun _ _ => sampleCatalogue 25) atBottom 3).state.products =
        some ((sampleCatalogue 25).take (min (10 * 3) (sampleCatalogue 25).length)) ∧
      (pagesLoaded (fun _ _ => sampleCatalogue 25) atBottom 3).state.total =
        some (sampleCatalogue 25).length ∧
      (pagesLoaded (fun _ _ => sampleCatalogue 25) atBottom 3).inflight = [] ∧
      ((sampleCatalogue 25).length ≤ 10 * 3 → ∀ ev1 : ScrollEvent, ∃ sys1,
        step (pagesLoaded (fun _ _ => sampleCatalogue 25) atBottom 3) (.scroll ev1) =
            some sys1 ∧
          sys1.inflight = [] ∧ sys1.state.products = some (sampleCatalogue 25))) :=
  ⟨by decide, pagesLoaded_take (sampleCatalogue 25) atBottom 3 (by decide) (by decide)⟩

/-- Delivering the server's answer stays within the reachable states. -/
theorem reachableBy_deliver (allowed : Sys → Event → Prop) (srv : Server)
    (hal : ∀ (sys : Sys) (i : Nat) (p : Pending), sys.inflight[i]? = some p →
      allowed sys (.settle i (.resolved (serve srv p.request))))
    (sys : Sys) (h : ReachableBy allowed sys) : ReachableBy allowed (deliver srv sys) := by
  unfold deliver
  split
  · exact h
  · next p rest hp =>
    split
    · next sys1 hstep =>
      exact ReachableBy.step _ h (hal sys 0 p (by simp [hp])) hstep
    · exact h

/-- An admitted event stays within the reachable states. -/
theorem reachableBy_act (allowed : Sys → Event → Prop) (e : Event)
    (hal : ∀ sys : Sys, allowed sys e)
    (sys : Sys) (h : ReachableBy allowed sys) : ReachableBy allowed (act e sys) := by
  unfold act
  split
  · next sys1 hstep => exact ReachableBy.step e h (hal sys) hstep
  · exact h

/-- C3 fails on the code: with the first page of the 25-product catalogue
loaded, editing the category filter (without applying it) and scrolling to the
bottom fetches page 2 of the 3-product selection and appends it to the old
list instead of resetting the list; the reachable state then holds 10 products
against a reported total of 3. -/
theorem list_exceeds_total_after_filter_edit :
    Reachable sampleServer editedFilterPage ∧
      ∃ l t, editedFilterPage.state.products = some l ∧
        editedFilterPage.state.total = some t ∧ l.length = 10 ∧ t = 3 ∧ ¬ l.length ≤ t := by
  have hd : ∀ sys, Reachable sampleServer sys → Reachable sampleServer (deliver sampleServer sys) :=
    reachableBy_deliver _ sampleServer (fun sys i p hp => ⟨p, hp, rfl⟩)
  refine ⟨?_, ?_⟩
  · unfold editedFilterPage
    apply hd
    apply reachableBy_act _ _ (fun _ => trivial)
    apply reachableBy_act _ _ (fun _ => trivial)
    exact hd _ ReachableBy.mount
  · refine ⟨(sampleCatalogue 25).take 10, 3, ?_, ?_, ?_, rfl, ?_⟩ <;> decide

end Products
